import Mathlib

/-!
Shallow embedding of the plan-execute-replan agent of
`src/app/agents/plan_execution_agent.py` (class `PlanExecuteAgent`).

The LangGraph state channels of the `PlanExecute` TypedDict are modelled as a
record; the two `Annotated[..., operator.add]` channels (`past_steps`,
`current_step`) are applied by making each node return the whole updated
state, with the additions written out exactly where the node returns a
partial update in Python.  Exceptions raised by Python code (KeyError on the
tool-registry dict, a raising tool, IndexError on list indexing, a
structured-output parse failure, LangGraph's GraphRecursionError) are
modelled by `Except RunError`.  The three LLM callables built by
`_create_executor`, `_create_planner` and `_create_re_planner` are external
oracles: they are fields of the agent record, each taking exactly the
template variables its ChatPromptTemplate reads.
-/

namespace PlanExec

/-- One tool call carried by an oracle message: `tool_call["name"]`,
`tool_call["args"]`, `tool_call["id"]` in `_execute_step`.  Arguments are
kept opaque as a string. -/
structure ToolCall where
  name : String
  args : String
  id : String
  deriving DecidableEq, Repr

/-- The message returned by `self.executor.invoke(...)` (`agent_response`):
content plus a list of requested tool calls. -/
structure OracleMsg where
  content : String
  tool_calls : List ToolCall
  deriving DecidableEq, Repr

/-- A `BaseMessage` stored in `past_steps`: either an oracle turn
(`agent_response`) or a `ToolMessage(content, name, tool_call_id)`. -/
inductive Message where
  | oracle (msg : OracleMsg)
  | toolResult (content : String) (name : String) (tool_call_id : String)
  deriving DecidableEq, Repr

/-- A registered tool: `name`, `description`, and `invoke`, where
`Except.error e` models the tool raising exception text `e`. -/
structure Tool where
  name : String
  description : String
  invoke : String → Except String String

/-- The `Plan` pydantic model: a list of step strings. -/
structure Plan where
  steps : List String
  deriving DecidableEq, Repr

/-- The `Response` pydantic model: the final response text. -/
structure Response where
  response : String
  deriving DecidableEq, Repr

/-- The `Act` pydantic model: `action : Union[Response, Plan]`. -/
inductive Act where
  | response (r : Response)
  | plan (p : Plan)
  deriving DecidableEq, Repr

/-- The `PlanExecute` TypedDict (graph state).  `response := none` models the
`response` key being absent from the state (it is only ever written by
`_re_plan_step`); `current_step` starts from the 0 default of its
`operator.add` channel. -/
structure PlanExecute where
  input : String
  plan : List String
  past_steps : List Message
  current_step : Nat
  response : Option String
  deriving DecidableEq, Repr

/-- Python exceptions and fatal run errors, as surfaced out of
`app.invoke`. -/
inductive RunError where
  | indexError (idx : Nat)
  | keyError (name : String)
  | toolError (msg : String)
  | schemaMismatch (msg : String)
  | graphRecursionError
  deriving DecidableEq, Repr

/-- The `PlanExecuteAgent` with its three oracle callables.  Each oracle
takes exactly the template variables its prompt reads:
`executorOracle messages plan_str current_step task`,
`plannerOracle input tools`,
`rePlannerOracle input plan past_steps tools` (the re-planner prompt has
placeholders `tools`, `input`, `plan` and `past_steps` only; the other keys
of `{**state}` are ignored by the template).  `Except.error` on the two
structured oracles models a structured-output parse failure. -/
structure PlanExecuteAgent where
  tools : List Tool
  executorOracle : List Message → String → Nat → String → OracleMsg
  plannerOracle : String → String → Except String Plan
  rePlannerOracle : String → List String → List Message → String → Except String Act

/-- `self.tools_description`: newline-joined `Tool name: ..., tool
description: ...` lines. -/
def toolsDescription (tools : List Tool) : String :=
  String.intercalate "\n"
    (tools.map (fun t => "Tool name: " ++ t.name ++ ", tool description: " ++ t.description))

/-- `self.tools_by_name[name]`: dict built by comprehension, a later tool
with the same name overwrites an earlier one; `none` models the KeyError
case of a missing key. -/
def toolsByName (tools : List Tool) (name : String) : Option Tool :=
  tools.reverse.find? (fun t => t.name == name)

/-- `plan_str`: `"\n".join(f"{i + 1}. {step}" ...)`. -/
def formatPlanStr (plan : List String) : String :=
  String.intercalate "\n" (plan.enum.map (fun p => toString (p.1 + 1) ++ ". " ++ p.2))

/-- The `for tool_call in agent_response.tool_calls` loop of
`_execute_step`: looks each name up in `tools_by_name` (KeyError on a miss),
invokes the tool (a raising tool aborts the loop), and builds the
`ToolMessage` list in call order. -/
def runToolCalls (A : PlanExecuteAgent) : List ToolCall → Except RunError (List Message)
  | [] => Except.ok []
  | c :: rest =>
    match toolsByName A.tools c.name with
    | none => Except.error (RunError.keyError c.name)
    | some t =>
      match t.invoke c.args with
      | Except.error e => Except.error (RunError.toolError e)
      | Except.ok result =>
        match runToolCalls A rest with
        | Except.error e => Except.error e
        | Except.ok msgs => Except.ok (Message.toolResult result c.name c.id :: msgs)

/-- `_execute_step`: reads `plan[current_step]` (IndexError when out of
range, which happens before the oracle is invoked), invokes the executor
oracle, resolves its tool calls, and returns the additive update
`past_steps += [agent_response, *outputs]`, `current_step += 1`. -/
def executeStep (A : PlanExecuteAgent) (state : PlanExecute) : Except RunError PlanExecute :=
  match state.plan[state.current_step]? with
  | none => Except.error (RunError.indexError state.current_step)
  | some task =>
    let agent_response :=
      A.executorOracle state.past_steps (formatPlanStr state.plan) state.current_step task
    match runToolCalls A agent_response.tool_calls with
    | Except.error e => Except.error e
    | Except.ok outputs =>
      Except.ok { state with
        past_steps := state.past_steps ++ (Message.oracle agent_response :: outputs),
        current_step := state.current_step + 1 }

/-- `_plan_step`: invokes the planner oracle on the objective and the tool
descriptions and installs the produced plan. -/
def planStep (A : PlanExecuteAgent) (state : PlanExecute) : Except RunError PlanExecute :=
  match A.plannerOracle state.input (toolsDescription A.tools) with
  | Except.error e => Except.error (RunError.schemaMismatch e)
  | Except.ok p => Except.ok { state with plan := p.steps }

/-- The single re-planner oracle invocation of `_re_plan_step`:
`self.re_planner.invoke({**state, "tools": self.tools_description})`, whose
prompt reads exactly `input`, `plan`, `past_steps` and `tools`. -/
def replanAction (A : PlanExecuteAgent) (state : PlanExecute) : Except String Act :=
  A.rePlannerOracle state.input state.plan state.past_steps (toolsDescription A.tools)

/-- `_re_plan_step`: on a `Response` action sets the `response` key, on a
`Plan` action replaces the plan.  Note that neither branch touches
`current_step`. -/
def rePlanStep (A : PlanExecuteAgent) (state : PlanExecute) : Except RunError PlanExecute :=
  match replanAction A state with
  | Except.error e => Except.error (RunError.schemaMismatch e)
  | Except.ok (Act.response r) => Except.ok { state with response := some r.response }
  | Except.ok (Act.plan p) => Except.ok { state with plan := p.steps }

/-- Graph nodes: `planner`, `agent`, `re_plan`, and the `END` sentinel. -/
inductive Node where
  | planner
  | agent
  | rePlan
  | done
  deriving DecidableEq, Repr

/-- `_should_continue_execution`: `"agent"` while the plan is non-empty and
the cursor is in range, else `"re_plan"`. -/
def shouldContinueExecution (state : PlanExecute) : Node :=
  if state.plan ≠ [] ∧ state.current_step < state.plan.length then Node.agent
  else Node.rePlan

/-- `_should_end`: `END` only when the `response` key is present and truthy
(a non-empty string), else back to `"agent"`. -/
def shouldEnd (state : PlanExecute) : Node :=
  match state.response with
  | some r => if r ≠ "" then Node.done else Node.agent
  | none => Node.agent

/-- Runs the body of one graph node. -/
def nodeStep (A : PlanExecuteAgent) : Node → PlanExecute → Except RunError PlanExecute
  | Node.planner, s => planStep A s
  | Node.agent, s => executeStep A s
  | Node.rePlan, s => rePlanStep A s
  | Node.done, s => Except.ok s

/-- The graph's edges: `START → planner → agent`, then the two conditional
edges. -/
def nextNode : Node → PlanExecute → Node
  | Node.planner, _ => Node.agent
  | Node.agent, s => shouldContinueExecution s
  | Node.rePlan, s => shouldEnd s
  | Node.done, _ => Node.done

/-- The compiled graph's execution loop under a recursion limit: each node
execution consumes one unit of the limit; reaching the limit with the graph
not at `END` raises `GraphRecursionError`. -/
def runLoop (A : PlanExecuteAgent) : Nat → Node → PlanExecute → Except RunError PlanExecute
  | _, Node.done, s => Except.ok s
  | 0, _, _ => Except.error RunError.graphRecursionError
  | Nat.succ n, node, s =>
    match nodeStep A node s with
    | Except.error e => Except.error e
    | Except.ok s2 => runLoop A n (nextNode node s2) s2

/-- `runLoop` instrumented with the number of node executions performed. -/
def runLoopSteps (A : PlanExecuteAgent) :
    Nat → Node → PlanExecute → Except RunError PlanExecute × Nat
  | _, Node.done, s => (Except.ok s, 0)
  | 0, _, _ => (Except.error RunError.graphRecursionError, 0)
  | Nat.succ n, node, s =>
    match nodeStep A node s with
    | Except.error e => (Except.error e, 1)
    | Except.ok s2 =>
      let r := runLoopSteps A n (nextNode node s2) s2
      (r.1, r.2 + 1)

/-- `config = {"recursion_limit": 20}` in `PlanExecuteAgent.run`. -/
def recursionLimit : Nat := 20

/-- The initial graph state for `self.app.invoke({"input": message})`:
only `input` is set; the additive channels start at their defaults. -/
def initState (message : String) : PlanExecute :=
  { input := message, plan := [], past_steps := [], current_step := 0, response := none }

/-- `PlanExecuteAgent.run`: invoke the graph from `START` (whose sole edge
goes to `planner`) with recursion limit 20. -/
def run (A : PlanExecuteAgent) (message : String) : Except RunError PlanExecute :=
  runLoop A recursionLimit Node.planner (initState message)

/-- Spec-side predicate for the history invariant: `msgs` consists, in
order, of exactly one tool-result message per tool call of `calls`, each
carrying the matching tool name and call identifier. -/
def matchesCalls : List ToolCall → List Message → Bool
  | [], [] => true
  | c :: cs, Message.toolResult _ n i :: ms => n == c.name && i == c.id && matchesCalls cs ms
  | _, _ => false

/-! Deterministic oracle stubs and concrete states used to evaluate the
model on closed inputs. -/

/-- Stub agent whose re-planner always revises to the one-step plan
`["new step"]`; its executor makes no tool calls. -/
def reviseAgent : PlanExecuteAgent :=
  { tools := []
    executorOracle := fun _ _ _ _ => { content := "ok", tool_calls := [] }
    plannerOracle := fun _ _ => Except.ok { steps := ["s1", "s2"] }
    rePlannerOracle := fun _ _ _ _ => Except.ok (Act.plan { steps := ["new step"] }) }

/-- State reached after both steps of the plan `["s1", "s2"]` have been
executed: the additive `current_step` channel holds 2. -/
def c1StateBefore : PlanExecute :=
  { input := "obj", plan := ["s1", "s2"], past_steps := [], current_step := 2, response := none }

/-- The state `_re_plan_step` produces from `c1StateBefore` on a `Revise`
action: new plan installed, cursor untouched. -/
def c1StateAfter : PlanExecute :=
  { input := "obj", plan := ["new step"], past_steps := [], current_step := 2,
    response := none }

/-- Stub agent with an empty tool registry whose executor oracle requests
the unregistered tool `missing_tool` on its first (and only) tool call. -/
def unknownToolAgent : PlanExecuteAgent :=
  { tools := []
    executorOracle := fun _ _ _ _ =>
      { content := "", tool_calls := [{ name := "missing_tool", args := "a", id := "call_1" }] }
    plannerOracle := fun _ _ => Except.ok { steps := ["step1"] }
    rePlannerOracle := fun _ _ _ _ => Except.ok (Act.response { response := "done" }) }

/-- Stub agent with one registered tool `boom` that always raises; the
executor oracle calls it once. -/
def raisingToolAgent : PlanExecuteAgent :=
  { tools := [{ name := "boom", description := "always raises",
                invoke := fun _ => Except.error "tool failed" }]
    executorOracle := fun _ _ _ _ =>
      { content := "", tool_calls := [{ name := "boom", args := "a", id := "call_1" }] }
    plannerOracle := fun _ _ => Except.ok { steps := ["step1"] }
    rePlannerOracle := fun _ _ _ _ => Except.ok (Act.response { response := "done" }) }

/-- Stub agent whose planner returns the empty plan. -/
def emptyPlanAgent : PlanExecuteAgent :=
  { tools := []
    executorOracle := fun _ _ _ _ => { content := "ok", tool_calls := [] }
    plannerOracle := fun _ _ => Except.ok { steps := [] }
    rePlannerOracle := fun _ _ _ _ => Except.ok (Act.response { response := "done" }) }

/-- Stub agent whose re-planner always answers `Respond("")`. -/
def emptyRespondAgent : PlanExecuteAgent :=
  { tools := []
    executorOracle := fun _ _ _ _ => { content := "ok", tool_calls := [] }
    plannerOracle := fun _ _ => Except.ok { steps := ["s1"] }
    rePlannerOracle := fun _ _ _ _ => Except.ok (Act.response { response := "" }) }

/-- Stub agent with one echo tool, a one-step plan, one tool call per step,
and a terminal `Respond("done")` re-planner. -/
def goodAgent : PlanExecuteAgent :=
  { tools := [{ name := "echo", description := "echoes its argument",
                invoke := fun a => Except.ok a }]
    executorOracle := fun _ _ _ _ =>
      { content := "", tool_calls := [{ name := "echo", args := "hi", id := "c1" }] }
    plannerOracle := fun _ _ => Except.ok { steps := ["step1"] }
    rePlannerOracle := fun _ _ _ _ => Except.ok (Act.response { response := "done" }) }

/-- The graph state at the start of the single step of plan `["step1"]`. -/
def step1State : PlanExecute :=
  { input := "obj", plan := ["step1"], past_steps := [], current_step := 0, response := none }

/-- The state `_execute_step` produces from `step1State` under
`goodAgent`: the oracle turn and the matching tool result appended, cursor
advanced to 1. -/
def step1StateAfter : PlanExecute :=
  { input := "obj", plan := ["step1"]
    past_steps :=
      [Message.oracle { content := "",
                        tool_calls := [{ name := "echo", args := "hi", id := "c1" }] },
       Message.toolResult "hi" "echo" "c1"]
    current_step := 1, response := none }

/-- Stub agent whose re-planner always revises, appending one more step to
the current plan, so that the run never terminates on its own. -/
def stubbornAgent : PlanExecuteAgent :=
  { tools := []
    executorOracle := fun _ _ _ _ => { content := "ok", tool_calls := [] }
    plannerOracle := fun _ _ => Except.ok { steps := ["s1"] }
    rePlannerOracle := fun _ plan _ _ => Except.ok (Act.plan { steps := plan ++ ["more"] }) }

/-- The graph state at the start of the two-step plan `["s1", "s2"]`. -/
def c6State : PlanExecute :=
  { input := "obj", plan := ["s1", "s2"], past_steps := [], current_step := 0, response := none }

/-- The state `_execute_step` produces from `c6State` under `reviseAgent`
(a step with zero tool calls): only the oracle turn appended, cursor 1. -/
def c6StateAfter : PlanExecute :=
  { input := "obj", plan := ["s1", "s2"]
    past_steps := [Message.oracle { content := "ok", tool_calls := [] }]
    current_step := 1, response := none }

/-- The graph state on which `_re_plan_step` runs after the one step of
plan `["s1"]` has been executed. -/
def c7State : PlanExecute :=
  { input := "obj", plan := ["s1"], past_steps := [], current_step := 1, response := none }

/-- The state `_re_plan_step` produces from `c7State` when the re-planner
answers `Respond("")`. -/
def c7StateAfter : PlanExecute :=
  { input := "obj", plan := ["s1"], past_steps := [], current_step := 1, response := some "" }

/-- A run state with objective `"obj"`, plan `["s1"]`, empty history,
cursor 0 and no response. -/
def c10StateA : PlanExecute :=
  { input := "obj", plan := ["s1"], past_steps := [], current_step := 0, response := none }

/-- The same objective, plan and history as `c10StateA`, but a different
cursor and response. -/
def c10StateB : PlanExecute :=
  { input := "obj", plan := ["s1"], past_steps := [], current_step := 5,
    response := some "x" }

/-! ## Helper lemmas about the execution loop -/

theorem runLoop_done (A : PlanExecuteAgent) (fuel : Nat) (s : PlanExecute) :
    runLoop A fuel Node.done s = Except.ok s := by
  cases fuel <;> rfl

theorem runLoop_zero (A : PlanExecuteAgent) (node : Node) (s : PlanExecute)
    (h : node ≠ Node.done) :
    runLoop A 0 node s = Except.error RunError.graphRecursionError := by
  cases node
  · rfl
  · rfl
  · rfl
  · exact absurd rfl h

theorem runLoop_succ (A : PlanExecuteAgent) (n : Nat) (node : Node) (s : PlanExecute)
    (h : node ≠ Node.done) :
    runLoop A (n + 1) node s =
      match nodeStep A node s with
      | Except.error e => Except.error e
      | Except.ok s2 => runLoop A n (nextNode node s2) s2 := by
  cases node
  · rfl
  · rfl
  · rfl
  · exact absurd rfl h

theorem runLoopSteps_succ (A : PlanExecuteAgent) (n : Nat) (node : Node) (s : PlanExecute)
    (h : node ≠ Node.done) :
    runLoopSteps A (n + 1) node s =
      match nodeStep A node s with
      | Except.error e => (Except.error e, 1)
      | Except.ok s2 =>
        ((runLoopSteps A n (nextNode node s2) s2).1,
         (runLoopSteps A n (nextNode node s2) s2).2 + 1) := by
  cases node
  · rfl
  · rfl
  · rfl
  · exact absurd rfl h

/-- The instrumented loop computes the same result as the graph loop. -/
theorem runLoopSteps_fst (A : PlanExecuteAgent) :
    ∀ (fuel : Nat) (node : Node) (s : PlanExecute),
      (runLoopSteps A fuel node s).1 = runLoop A fuel node s := by
  intro fuel
  induction fuel with
  | zero => intro node s; cases node <;> rfl
  | succ n ih =>
    intro node s
    by_cases hd : node = Node.done
    · subst hd; rfl
    · rw [runLoopSteps_succ A n node s hd, runLoop_succ A n node s hd]
      cases h : nodeStep A node s
      · rfl
      · dsimp only
        exact ih _ _

/-- The loop never performs more node executions than its fuel. -/
theorem runLoopSteps_le (A : PlanExecuteAgent) :
    ∀ (fuel : Nat) (node : Node) (s : PlanExecute), (runLoopSteps A fuel node s).2 ≤ fuel := by
  intro fuel
  induction fuel with
  | zero => intro node s; cases node <;> simp [runLoopSteps]
  | succ n ih =>
    intro node s
    by_cases hd : node = Node.done
    · subst hd
      simp [runLoopSteps]
    · rw [runLoopSteps_succ A n node s hd]
      cases h : nodeStep A node s
      · exact Nat.succ_le_succ (Nat.zero_le n)
      · dsimp only
        exact Nat.succ_le_succ (ih _ _)

/-- A successful tool-call loop produces, in call order, exactly one
tool-result message per tool call, with the matching name and call id. -/
theorem runToolCalls_matchesCalls (A : PlanExecuteAgent) :
    ∀ (calls : List ToolCall) (msgs : List Message),
      runToolCalls A calls = Except.ok msgs → matchesCalls calls msgs = true := by
  intro calls
  induction calls with
  | nil =>
    intro msgs h
    unfold runToolCalls at h
    injection h with h
    subst h
    rfl
  | cons c cs ih =>
    intro msgs h
    unfold runToolCalls at h
    split at h
    · simp at h
    · split at h
      · simp at h
      · split at h
        · simp at h
        · injection h with h
          subst h
          rename_i msgs2 heq
          simp [matchesCalls, ih msgs2 heq]

/-- When the planner node succeeds and the first agent node then fails, the
whole run fails with the agent node's error (for the default limit of 20,
instantiated at `n = 18`). -/
theorem runLoop_planner_then_agent_error (A : PlanExecuteAgent) (n : Nat)
    (s s1 : PlanExecute) (e : RunError)
    (h1 : nodeStep A Node.planner s = Except.ok s1)
    (h2 : nodeStep A Node.agent s1 = Except.error e) :
    runLoop A (n + 2) Node.planner s = Except.error e := by
  rw [show n + 2 = (n + 1) + 1 from rfl, runLoop_succ A (n + 1) Node.planner s (by simp), h1]
  dsimp only
  show runLoop A (n + 1) Node.agent s1 = Except.error e
  rw [runLoop_succ A n Node.agent s1 (by simp), h2]

/-! ## Claims -/

/-- Claim C1 (refuted by the code, code bug): the claim says that when the
re-planner returns a revised plan, the new plan is installed AND the step
cursor is reset to 0.  In the code, `_re_plan_step` returns only
`{"plan": steps}`; the `current_step` channel (reducer `operator.add`) is
never reset, so after executing both steps of `["s1", "s2"]`
(`current_step = 2`) a `Revise(["new step"])` leaves the cursor at 2, and
the next `_execute_step` raises IndexError on `plan[2]` instead of starting
the new plan at its first step — as the whole run on `reviseAgent` shows. -/
theorem c1_revise_keeps_cursor :
    rePlanStep reviseAgent c1StateBefore = Except.ok c1StateAfter ∧
    c1StateAfter.plan = ["new step"] ∧
    c1StateAfter.current_step = 2 ∧
    executeStep reviseAgent c1StateAfter = Except.error (RunError.indexError 2) ∧
    run reviseAgent "obj" = Except.error (RunError.indexError 2) :=
  ⟨rfl, rfl, rfl, rfl, rfl⟩

/-- Claim C2, counterexample: with an empty registry and an oracle that
requests `missing_tool` on the first tool call, `_execute_step` raises
KeyError: the run aborts, no error tool-result is appended, and the cursor
does not advance — refuting `run does not abort; history contains an error
tool-result; cursor still advances`. -/
theorem c2_unknown_tool_aborts :
    executeStep unknownToolAgent step1State = Except.error (RunError.keyError "missing_tool") ∧
    run unknownToolAgent "obj" = Except.error (RunError.keyError "missing_tool") :=
  ⟨rfl, rfl⟩

/-- Claim C2 as amended: whenever the oracle requests a tool name not
present in the registry (here on the step's first tool call), the raw dict
lookup `tools_by_name[name]` raises KeyError, which propagates out of
`_execute_step`: the step produces no state update (nothing is appended and
the cursor does not advance) and the run aborts with the error. -/
theorem c2_unknown_tool_key_error (A : PlanExecuteAgent) (s : PlanExecute)
    (task nm args id : String) (rest : List ToolCall)
    (htask : s.plan[s.current_step]? = some task)
    (hcalls : (A.executorOracle s.past_steps (formatPlanStr s.plan) s.current_step
        task).tool_calls = { name := nm, args := args, id := id } :: rest)
    (hmiss : toolsByName A.tools nm = none) :
    executeStep A s = Except.error (RunError.keyError nm) := by
  simp only [executeStep, htask]
  simp only [hcalls]
  simp only [runToolCalls, hmiss]

/-- Witness for C2's amended theorem at the concrete `unknownToolAgent`. -/
theorem c2_unknown_tool_key_error_witness :
    toolsByName unknownToolAgent.tools "missing_tool" = none ∧
    executeStep unknownToolAgent step1State = Except.error (RunError.keyError "missing_tool") :=
  ⟨rfl, c2_unknown_tool_key_error unknownToolAgent step1State "step1" "missing_tool" "a"
    "call_1" [] rfl rfl rfl⟩

/-- Claim C3, counterexample: with the registered tool `boom` whose
invocation raises `"tool failed"`, the exception is NOT caught inside
`_execute_step`: no error tool-result message is appended, and the
exception propagates to (and aborts) the control loop — refuting
`the exception is never propagated to the Control Loop`. -/
theorem c3_raising_tool_aborts :
    executeStep raisingToolAgent step1State = Except.error (RunError.toolError "tool failed") ∧
    run raisingToolAgent "obj" = Except.error (RunError.toolError "tool failed") :=
  ⟨rfl, rfl⟩

/-- Claim C3 as amended: a tool invocation that raises (here on the step's
first tool call) is not caught by `_execute_step`; the exception propagates
out of the Executor, so the step produces no state update (no error
tool-result is appended to the history) and the run aborts. -/
theorem c3_tool_error_propagates (A : PlanExecuteAgent) (s : PlanExecute)
    (task nm args id : String) (rest : List ToolCall) (t : Tool) (e : String)
    (htask : s.plan[s.current_step]? = some task)
    (hcalls : (A.executorOracle s.past_steps (formatPlanStr s.plan) s.current_step
        task).tool_calls = { name := nm, args := args, id := id } :: rest)
    (htool : toolsByName A.tools nm = some t)
    (hraise : t.invoke args = Except.error e) :
    executeStep A s = Except.error (RunError.toolError e) := by
  simp only [executeStep, htask]
  simp only [hcalls]
  simp only [runToolCalls, htool, hraise]

/-- Witness for C3's amended theorem at the concrete `raisingToolAgent`. -/
theorem c3_tool_error_propagates_witness :
    toolsByName raisingToolAgent.tools "boom" =
      some { name := "boom", description := "always raises",
             invoke := fun _ => Except.error "tool failed" } ∧
    executeStep raisingToolAgent step1State = Except.error (RunError.toolError "tool failed") :=
  ⟨rfl, c3_tool_error_propagates raisingToolAgent step1State "step1" "boom" "a" "call_1" []
    { name := "boom", description := "always raises",
      invoke := fun _ => Except.error "tool failed" } "tool failed" rfl rfl rfl rfl⟩

/-- Claim C4, counterexample: an empty plan from the planner is NOT
rejected before entering the executing node — the `planner → agent` edge is
unconditional, and the run then dies inside `_execute_step` with an
uncaught IndexError on `plan[0]`, not with a structured schema-style
rejection issued before `EXECUTING`. -/
theorem c4_empty_plan_crash :
    nextNode Node.planner (initState "obj") = Node.agent ∧
    run emptyPlanAgent "obj" = Except.error (RunError.indexError 0) :=
  ⟨rfl, rfl⟩

/-- Claim C4 as amended: when the planner produces an empty plan, the graph
still transitions unconditionally into the executing node, where
`plan[current_step]` raises IndexError before the executor oracle is ever
invoked; the run aborts with that unhandled error (so it never executes a
step and never silently completes, but there is no structured rejection
before `EXECUTING`). -/
theorem c4_empty_plan_index_error (A : PlanExecuteAgent) (msg : String)
    (hplan : A.plannerOracle msg (toolsDescription A.tools) = Except.ok { steps := [] }) :
    nextNode Node.planner (initState msg) = Node.agent ∧
    run A msg = Except.error (RunError.indexError 0) := by
  refine ⟨rfl, ?_⟩
  have h1 : nodeStep A Node.planner (initState msg) = Except.ok (initState msg) := by
    simp [nodeStep, planStep, hplan, initState]
  have h2 : nodeStep A Node.agent (initState msg) = Except.error (RunError.indexError 0) := by
    simp [nodeStep, executeStep, initState]
  exact runLoop_planner_then_agent_error A 18 _ _ _ h1 h2

/-- Witness for C4's amended theorem at the concrete `emptyPlanAgent`. -/
theorem c4_empty_plan_index_error_witness :
    emptyPlanAgent.plannerOracle "obj" (toolsDescription emptyPlanAgent.tools) =
      Except.ok { steps := [] } ∧
    run emptyPlanAgent "obj" = Except.error (RunError.indexError 0) :=
  ⟨rfl, (c4_empty_plan_index_error emptyPlanAgent "obj" rfl).2⟩

/-- Claim C5 (confirmed): whenever `_execute_step` completes, the segment
it appends to the history is the oracle's turn (the message carrying the
tool calls) immediately followed by, in call order, exactly one tool-result
message per tool call with the matching call identifier, and nothing else —
in particular every tool result is appended before any subsequent oracle
turn, which can only be appended by a later node execution. -/
theorem c5_tool_results_match_calls (A : PlanExecuteAgent) (s s2 : PlanExecute)
    (h : executeStep A s = Except.ok s2) :
    ∃ resp outputs,
      s2.past_steps = s.past_steps ++ (Message.oracle resp :: outputs) ∧
      matchesCalls resp.tool_calls outputs = true := by
  unfold executeStep at h
  split at h
  · simp at h
  · dsimp only at h
    split at h
    · simp at h
    · injection h with h
      subst h
      rename_i outputs heq
      exact ⟨_, outputs, rfl, runToolCalls_matchesCalls A _ outputs heq⟩

/-- Witness for C5 at the concrete `goodAgent` (one tool call). -/
theorem c5_tool_results_match_calls_witness :
    executeStep goodAgent step1State = Except.ok step1StateAfter ∧
    (∃ resp outputs,
      step1StateAfter.past_steps = step1State.past_steps ++ (Message.oracle resp :: outputs) ∧
      matchesCalls resp.tool_calls outputs = true) :=
  ⟨rfl, c5_tool_results_match_calls goodAgent step1State step1StateAfter rfl⟩

/-- Claim C6 (confirmed): every completed `_execute_step` advances the
cursor by exactly 1 (the node returns `current_step: 1` into the
`operator.add` channel), no matter how many tool calls the oracle made,
including zero. -/
theorem c6_cursor_advances_by_one (A : PlanExecuteAgent) (s s2 : PlanExecute)
    (h : executeStep A s = Except.ok s2) : s2.current_step = s.current_step + 1 := by
  unfold executeStep at h
  split at h
  · simp at h
  · dsimp only at h
    split at h
    · simp at h
    · injection h with h
      subst h
      rfl

/-- Witness for C6 at the concrete `reviseAgent` (a step with zero tool
calls). -/
theorem c6_cursor_advances_by_one_witness :
    executeStep reviseAgent c6State = Except.ok c6StateAfter ∧
    c6StateAfter.current_step = c6State.current_step + 1 :=
  ⟨rfl, c6_cursor_advances_by_one reviseAgent c6State c6StateAfter rfl⟩

/-- Claim C7, counterexample: the re-planner answers `Respond("")`;
`_re_plan_step` stores the empty response, but `_should_end` tests the
Python truthiness of `state["response"]`, so the empty string sends the
loop back to the agent node instead of `END` — and the run on
`emptyRespondAgent` then dies on `plan[1]` instead of reaching the terminal
state, refuting `for any response text, including the empty string`. -/
theorem c7_empty_response_continues :
    rePlanStep emptyRespondAgent c7State = Except.ok c7StateAfter ∧
    c7StateAfter.response = some "" ∧
    shouldEnd c7StateAfter = Node.agent ∧
    run emptyRespondAgent "obj" = Except.error (RunError.indexError 1) :=
  ⟨rfl, rfl, rfl, rfl⟩

/-- Claim C7 as amended: whenever the re-planner chooses `Respond` with a
NON-EMPTY response text, the loop installs the response, `_should_end`
routes to `END`, and the run stops there with that response and no further
node executions; `Respond("")` instead routes back to the agent node. -/
theorem c7_nonempty_respond_terminates (A : PlanExecuteAgent) (s : PlanExecute)
    (r : String) (n : Nat)
    (hact : replanAction A s = Except.ok (Act.response { response := r }))
    (hr : r ≠ "") :
    runLoop A (n + 1) Node.rePlan s = Except.ok { s with response := some r } := by
  have h1 : nodeStep A Node.rePlan s = Except.ok { s with response := some r } := by
    simp [nodeStep, rePlanStep, hact]
  rw [runLoop_succ A n Node.rePlan s (by simp), h1]
  dsimp only
  have h2 : nextNode Node.rePlan { s with response := some r } = Node.done := by
    simp [nextNode, shouldEnd, hr]
  rw [h2, runLoop_done]

/-- Witness for C7's amended theorem at the concrete `goodAgent`, whose
re-planner answers `Respond("done")`. -/
theorem c7_nonempty_respond_terminates_witness :
    replanAction goodAgent c7State = Except.ok (Act.response { response := "done" }) ∧
    runLoop goodAgent (0 + 1) Node.rePlan c7State =
      Except.ok { c7State with response := some "done" } :=
  ⟨rfl, c7_nonempty_respond_terminates goodAgent c7State "done" 0 rfl (by decide)⟩

/-- Claim C8 (confirmed): every node of the graph (planner, agent,
re-plan — and the `END` sentinel) that completes produces a state whose
history is the old history with a (possibly empty) suffix appended:
messages are never removed or replaced, so `len(past_steps)` never
shrinks across transitions. -/
theorem c8_history_append_only (A : PlanExecuteAgent) (node : Node) (s s2 : PlanExecute)
    (h : nodeStep A node s = Except.ok s2) :
    ∃ appended, s2.past_steps = s.past_steps ++ appended := by
  cases node
  case planner =>
    simp only [nodeStep] at h
    unfold planStep at h
    split at h
    · simp at h
    · injection h with h
      subst h
      exact ⟨[], by simp⟩
  case agent =>
    simp only [nodeStep] at h
    unfold executeStep at h
    split at h
    · simp at h
    · dsimp only at h
      split at h
      · simp at h
      · injection h with h
        subst h
        exact ⟨_, rfl⟩
  case rePlan =>
    simp only [nodeStep] at h
    unfold rePlanStep at h
    split at h
    · simp at h
    · injection h with h
      subst h
      exact ⟨[], by simp⟩
    · injection h with h
      subst h
      exact ⟨[], by simp⟩
  case done =>
    simp only [nodeStep] at h
    injection h with h
    subst h
    exact ⟨[], by simp⟩

/-- Witness for C8 at the concrete `goodAgent` planner node. -/
theorem c8_history_append_only_witness :
    nodeStep goodAgent Node.planner (initState "obj") = Except.ok step1State ∧
    (∃ appended, step1State.past_steps = (initState "obj").past_steps ++ appended) :=
  ⟨rfl, c8_history_append_only goodAgent Node.planner (initState "obj") step1State rfl⟩

/-- Claim C9 (confirmed): `run` invokes the graph with
`recursion_limit = 20`; the loop is a total function whose number of node
executions is at most that limit for every agent and objective (so every
run terminates), and a loop that exhausts the limit while the graph has not
reached `END` fails with the fatal `GraphRecursionError` rather than
looping forever. -/
theorem c9_transition_cap (A : PlanExecuteAgent) (msg : String) :
    recursionLimit = 20 ∧
    (runLoopSteps A recursionLimit Node.planner (initState msg)).2 ≤ recursionLimit ∧
    (runLoopSteps A recursionLimit Node.planner (initState msg)).1 = run A msg ∧
    ∀ (node : Node) (s : PlanExecute), node ≠ Node.done →
      runLoop A 0 node s = Except.error RunError.graphRecursionError :=
  ⟨rfl, runLoopSteps_le A recursionLimit Node.planner (initState msg),
   runLoopSteps_fst A recursionLimit Node.planner (initState msg),
   fun node s h => runLoop_zero A node s h⟩

/-- Witness for C9 at the concrete `stubbornAgent`, whose re-planner always
revises: its run exhausts the 20-transition budget and fails with
`GraphRecursionError`. -/
theorem c9_transition_cap_witness :
    (runLoopSteps stubbornAgent recursionLimit Node.planner (initState "obj")).2 ≤
      recursionLimit ∧
    runLoop stubbornAgent 0 Node.agent (initState "obj") =
      Except.error RunError.graphRecursionError ∧
    run stubbornAgent "obj" = Except.error RunError.graphRecursionError :=
  ⟨(c9_transition_cap stubbornAgent "obj").2.1,
   (c9_transition_cap stubbornAgent "obj").2.2.2 Node.agent (initState "obj") (by decide),
   rfl⟩

/-- Claim C10 (confirmed): the single re-planner invocation of
`_re_plan_step` reads exactly the objective (`input`), the current plan,
the history (`past_steps`) and the fixed tool descriptions, so with a
deterministic oracle two invocations on the same immutable run state — even
two states that differ in cursor or response — produce the same `Action`,
same variant and same payload. -/
theorem c10_replan_deterministic (A : PlanExecuteAgent) (s1 s2 : PlanExecute)
    (hin : s1.input = s2.input) (hplan : s1.plan = s2.plan)
    (hhist : s1.past_steps = s2.past_steps) :
    replanAction A s1 = replanAction A s2 := by
  unfold replanAction
  rw [hin, hplan, hhist]

/-- Witness for C10: two states with the same objective, plan and history
but different cursors and responses get the same `Respond("done")` action
from `goodAgent`'s deterministic re-planner. -/
theorem c10_replan_deterministic_witness :
    replanAction goodAgent c10StateA = replanAction goodAgent c10StateB ∧
    replanAction goodAgent c10StateA = Except.ok (Act.response { response := "done" }) :=
  ⟨c10_replan_deterministic goodAgent c10StateA c10StateB rfl rfl rfl, rfl⟩

end PlanExec
